import Mathlib

/-!
Verification of `default_userdata/letta_tools/register_votc_tool.py`.

The script has three operations: a pure tool-descriptor function
`execute_votc_action`, a registration routine `register_tool`, and a
verification routine `verify_tool`, driven by a `__main__` block.  The
external Letta client is modelled as an oracle (`LettaEnv`) giving the
outcome of each client call; console output is modelled as a list of
lines tagged with the stream they are printed to, and `sys.exit` as an
explicit routine result.
-/

/-- A Python value that can appear in a `params` dictionary, with the
textual representation Python's `str`/`repr` gives it. -/
inductive PyVal where
  | int (n : Int)
  | str (s : String)
deriving DecidableEq, Repr

/-- Python `repr` of a `PyVal`: integers print bare, strings print quoted. -/
def PyVal.pyRepr : PyVal → String
  | .int n => toString n
  | .str s => "'" ++ s ++ "'"

/-- Python `str` of a dict (association list of string keys to values),
as produced by an f-string: `\x7b'k': v, ...\x7d`. -/
def dictRepr (d : List (String × PyVal)) : String :=
  "\x7b" ++ String.intercalate ", " (d.map fun p => "'" ++ p.1 ++ "': " ++ p.2.pyRepr) ++ "\x7d"

/-- The tool-descriptor function `execute_votc_action(action_name, params=None)`:
normalizes an absent `params` to the empty dict, then returns the
templated acknowledgement f-string. -/
def execute_votc_action (action_name : String) (params : Option (List (String × PyVal))) : String :=
  let params := params.getD []
  "Action '" ++ action_name ++ "' queued for execution with params: " ++ dictRepr params

/-- A registered tool record as seen through the Letta client:
`id` and `name` attributes, plus its Python truthiness (`bool(tool)`),
which the `__main__` block tests with `if tool:`. -/
structure Tool where
  id : String
  name : String
  truthy : Bool
deriving DecidableEq, Repr

/-- Which console stream a printed line goes to. -/
inductive OutStream where
  | stdout
  | stderr
deriving DecidableEq, Repr

/-- One printed line: the stream it is written to and its text
(the argument of the Python `print` call). -/
structure OutLine where
  stream : OutStream
  text : String
deriving DecidableEq, Repr

deriving instance DecidableEq for Except

/-- The oracle for the external Letta client: the outcome of
`create_client()`, of `client.tools.create_from_function(...)` and of
`client.tools.list()`.  An `Except.error e` models the call raising an
exception whose string form is `e`. -/
structure LettaEnv where
  createClient : Except String Unit
  createFromFunction : Except String Tool
  listTools : Except String (List Tool)
deriving DecidableEq, Repr

/-- What a routine does to the process: return normally with a value, or
terminate the process via `sys.exit code`. -/
inductive RoutineResult (α : Type) where
  | normal (a : α)
  | exit (code : Nat)
deriving DecidableEq, Repr

/-- The lines printed by `register_tool`'s `except` handler: the diagnostic
on stderr, then `Make sure:` and the three remediation hints on stdout
(their `print` calls carry no `file=sys.stderr`). -/
def registerErrorLines (e : String) : List OutLine :=
  [⟨.stderr, "\n✗ Error registering tool: " ++ e⟩,
   ⟨.stdout, "\nMake sure:"⟩,
   ⟨.stdout, "  1. Letta server is running (default: http://localhost:8283)"⟩,
   ⟨.stdout, "  2. You have the letta package installed: pip install letta"⟩,
   ⟨.stdout, "  3. Your Letta server is accessible"⟩]

/-- The registration routine `register_tool()`: connects, registers the
descriptor, prints the assigned name and id and returns the record; any
exception from the client calls is caught, the diagnostic and hints are
printed, and the process exits with status 1. -/
def register_tool (env : LettaEnv) : List OutLine × RoutineResult Tool :=
  let connecting : OutLine := ⟨.stdout, "Connecting to Letta server..."⟩
  let registering : OutLine := ⟨.stdout, "Registering execute_votc_action tool..."⟩
  match env.createClient with
  | .error e => ([connecting] ++ registerErrorLines e, .exit 1)
  | .ok _ =>
    match env.createFromFunction with
    | .error e => ([connecting, registering] ++ registerErrorLines e, .exit 1)
    | .ok tool =>
      ([connecting, registering,
        ⟨.stdout, "\n✓ Successfully registered tool!"⟩,
        ⟨.stdout, "  Tool name: " ++ tool.name⟩,
        ⟨.stdout, "  Tool ID: " ++ tool.id⟩,
        ⟨.stdout, "\nYou can now attach this tool to agents using:"⟩,
        ⟨.stdout, "  agent = client.agents.create(tools=['execute_votc_action'], ...)"⟩],
       .normal tool)

/-- The verification routine `verify_tool()`: re-queries the registry,
linear-scans with early break (`List.find?`) for a record named
`execute_votc_action`, then tests the result with `if votc_tool:` —
Python truthiness, so the found message with the record's id is printed
only when the first name match is truthy, and the not-found message is
printed when there is no match or the match is falsy; any exception is
caught and printed to stderr, and the routine always returns normally. -/
def verify_tool (env : LettaEnv) : List OutLine × RoutineResult Unit :=
  let header : OutLine := ⟨.stdout, "\nVerifying tool registration..."⟩
  match env.createClient with
  | .error e => ([header, ⟨.stderr, "✗ Error verifying tool: " ++ e⟩], .normal ())
  | .ok _ =>
    match env.listTools with
    | .error e => ([header, ⟨.stderr, "✗ Error verifying tool: " ++ e⟩], .normal ())
    | .ok tools =>
      match tools.find? (fun t => t.name == "execute_votc_action") with
      | some votc_tool =>
          if votc_tool.truthy then
            ([header, ⟨.stdout, "✓ Tool verified! ID: " ++ votc_tool.id⟩], .normal ())
          else
            ([header, ⟨.stdout, "✗ Tool not found in registry"⟩], .normal ())
      | none =>
          ([header, ⟨.stdout, "✗ Tool not found in registry"⟩], .normal ())

/-- Sixty equals signs, the `"="*60` banner line. -/
def eqLine : String := String.mk (List.replicate 60 '=')

/-- The outcome of one run of the script: every printed line in order,
the process exit status, and how many times `verify_tool` was invoked. -/
structure RunResult where
  output : List OutLine
  exitCode : Nat
  verifyCalls : Nat
deriving DecidableEq, Repr

/-- The `__main__` block: print the banner, run `register_tool`; if it
exits, the process exits with that status; otherwise, if the returned
record is truthy, run `verify_tool` once and print the completion
banner; either way the process then exits with status 0. -/
def main_block (env : LettaEnv) : RunResult :=
  let banner : List OutLine :=
    [⟨.stdout, eqLine⟩, ⟨.stdout, "  VOTC Action Tool Registration for Letta"⟩,
     ⟨.stdout, eqLine⟩]
  let reg := register_tool env
  match reg.2 with
  | .exit c => ⟨banner ++ reg.1, c, 0⟩
  | .normal tool =>
    if tool.truthy then
      let ver := verify_tool env
      ⟨banner ++ reg.1 ++ ver.1 ++
        [⟨.stdout, "\n" ++ eqLine⟩, ⟨.stdout, "  Registration complete!"⟩, ⟨.stdout, eqLine⟩],
       0, 1⟩
    else
      ⟨banner ++ reg.1, 0, 0⟩

/-- The verification routine "reports the tool as found" when some line of
its output is the stdout found-message carrying an id. -/
def reportsFound (out : List OutLine) : Prop :=
  ∃ s : String, OutLine.mk .stdout ("✓ Tool verified! ID: " ++ s) ∈ out

/-- A client environment whose `create_client()` raises
`Connection refused`. -/
def envConnFail : LettaEnv :=
  ⟨Except.error "Connection refused", Except.ok ⟨"tid", "execute_votc_action", true⟩,
   Except.ok []⟩

/-- A client environment where every call succeeds and registration
returns a truthy record. -/
def envOk : LettaEnv :=
  ⟨Except.ok (), Except.ok ⟨"tool-123", "execute_votc_action", true⟩,
   Except.ok [⟨"tool-123", "execute_votc_action", true⟩]⟩

/-- A client environment where registration succeeds but returns a record
whose Python truthiness is false. -/
def envFalsy : LettaEnv :=
  ⟨Except.ok (), Except.ok ⟨"tool-123", "execute_votc_action", false⟩, Except.ok []⟩

/-- A client environment whose registry listing holds exactly one record
named `execute_votc_action`, and that record is falsy. -/
def envFalsyMatch : LettaEnv :=
  ⟨Except.ok (), Except.ok ⟨"tid", "execute_votc_action", true⟩,
   Except.ok [⟨"idF", "execute_votc_action", false⟩]⟩

/-- A client environment whose registry listing holds two records named
`execute_votc_action`: the first falsy, the second truthy. -/
def envTwoMatches : LettaEnv :=
  ⟨Except.ok (), Except.ok ⟨"tid", "execute_votc_action", true⟩,
   Except.ok [⟨"idF", "execute_votc_action", false⟩, ⟨"idS", "execute_votc_action", true⟩]⟩

/-- Indexing into an append stays in the left list when the index is
within it. -/
lemma list_get?_append_left {α : Type} (l₁ l₂ : List α) (i : Nat) (h : i < l₁.length) :
    (l₁ ++ l₂).get? i = l₁.get? i := by
  induction l₁ generalizing i with
  | nil => simp at h
  | cons a tl ih =>
    cases i with
    | zero => rfl
    | succ n => simpa using ih n (by simpa using h)

/-- Two strings differ when they differ at a character position that lies
inside the prefix of the second: `a ≠ pre ++ s` whatever the suffix `s`. -/
lemma string_ne_append (a pre s : String) (i : Nat) (hi : i < pre.data.length)
    (hne : a.data.get? i ≠ pre.data.get? i) : a ≠ pre ++ s := by
  intro h
  apply hne
  have h2 : a.data.get? i = (pre ++ s).data.get? i := by rw [h]
  rwa [String.data_append, list_get?_append_left _ _ _ hi] at h2

/-- The linear scan over `l₁ ++ t :: l₂` returns `t` when nothing in `l₁`
carries the expected name and `t` does. -/
lemma find?_votc_append_first (l₁ l₂ : List Tool) (t : Tool)
    (ht : t.name = "execute_votc_action")
    (hl₁ : ∀ u ∈ l₁, u.name ≠ "execute_votc_action") :
    (l₁ ++ t :: l₂).find? (fun u => u.name == "execute_votc_action") = some t := by
  induction l₁ with
  | nil => simp [List.find?, ht]
  | cons a tl ih =>
    have ha : (a.name == "execute_votc_action") = false := by
      simpa using hl₁ a (by simp)
    simpa [List.find?, ha] using ih (fun u hu => hl₁ u (by simp [hu]))

/-- Conversely, a successful linear scan splits the list at its first
name match: everything before the result misses the expected name. -/
lemma find?_votc_decomp (tools : List Tool) (t : Tool)
    (h : tools.find? (fun u => u.name == "execute_votc_action") = some t) :
    ∃ l₁ l₂, tools = l₁ ++ t :: l₂ ∧ ∀ u ∈ l₁, u.name ≠ "execute_votc_action" := by
  induction tools with
  | nil => simp [List.find?] at h
  | cons a tl ih =>
    by_cases ha : (a.name == "execute_votc_action") = true
    · have hat : a = t := by simpa [List.find?, ha] using h
      exact ⟨[], tl, by simp [hat], by simp⟩
    · have hfalse : (a.name == "execute_votc_action") = false := by
        simpa using ha
      obtain ⟨l₁, l₂, heq, hall⟩ := ih (by simpa [List.find?, hfalse] using h)
      refine ⟨a :: l₁, l₂, by simp [heq], ?_⟩
      rintro u hu
      rcases List.mem_cons.mp hu with rfl | hu
      · simpa using hfalse
      · exact hall u hu

/-- C2: the descriptor applied to `emotionHappy` with absent params yields
exactly `Action 'emotionHappy' queued for execution with params: \x7b\x7d`,
and applied to `improveOpinionOfPlayer` with `\x7b"amount": 10\x7d` yields
exactly `Action 'improveOpinionOfPlayer' queued for execution with params:
\x7b'amount': 10\x7d`. -/
theorem execute_votc_action_scenarios :
    execute_votc_action "emotionHappy" none =
      "Action 'emotionHappy' queued for execution with params: \x7b\x7d" ∧
    execute_votc_action "improveOpinionOfPlayer" (some [("amount", PyVal.int 10)]) =
      "Action 'improveOpinionOfPlayer' queued for execution with params: \x7b'amount': 10\x7d" := by
  decide

/-- C6: for every non-empty action name and every params argument (present
or absent), the descriptor's result contains the literal action name and
the textual representation of the (defaulted-to-empty) params dict as
substrings. -/
theorem execute_votc_action_contains (action_name : String)
    (params : Option (List (String × PyVal))) (h : action_name ≠ "") :
    (∃ l r, execute_votc_action action_name params = l ++ action_name ++ r) ∧
    (∃ l r, execute_votc_action action_name params = l ++ dictRepr (params.getD []) ++ r) := by
  refine ⟨⟨"Action '", "' queued for execution with params: " ++ dictRepr (params.getD []), ?_⟩,
    ⟨"Action '" ++ action_name ++ "' queued for execution with params: ", "", ?_⟩⟩
  · simp [execute_votc_action, String.append_assoc]
  · simp [execute_votc_action, String.append_assoc]

/-- Witness for C6 at the concrete input `emotionHappy` with absent params. -/
theorem execute_votc_action_contains_witness :
    ("emotionHappy" ≠ "") ∧
    ((∃ l r, execute_votc_action "emotionHappy" none = l ++ "emotionHappy" ++ r) ∧
     (∃ l r, execute_votc_action "emotionHappy" none =
        l ++ dictRepr ((none : Option (List (String × PyVal))).getD []) ++ r)) :=
  ⟨by decide, execute_votc_action_contains "emotionHappy" none (by decide)⟩

/-- C7: the descriptor normalizes an absent params mapping to the empty
mapping before formatting, and (being a total function of its two
arguments) returns normally on every input of the stated contract. -/
theorem execute_votc_action_default_params (action_name : String) :
    execute_votc_action action_name none = execute_votc_action action_name (some []) := rfl

/-- C8: the descriptor is pure: two calls on identical inputs return
identical output. -/
theorem execute_votc_action_deterministic (action_name : String)
    (params : Option (List (String × PyVal))) (r₁ r₂ : String)
    (h₁ : r₁ = execute_votc_action action_name params)
    (h₂ : r₂ = execute_votc_action action_name params) : r₁ = r₂ := h₁.trans h₂.symm

/-- Witness for C8 at the concrete input `emotionHappy` with absent params. -/
theorem execute_votc_action_deterministic_witness :
    execute_votc_action "emotionHappy" none = execute_votc_action "emotionHappy" none :=
  execute_votc_action_deterministic "emotionHappy" none _ _ rfl rfl

/-- C3 (amended): when the registry query succeeds, the verification
routine reports the tool as found iff the first record in the list named
`execute_votc_action` exists and is Python-truthy (the source tests the
matched record with `if votc_tool:`); when no record has that name it
prints the not-found message and returns normally (no exception reaches
its caller). -/
theorem verify_tool_found_iff_truthy (env : LettaEnv) (tools : List Tool)
    (hcc : env.createClient = Except.ok ()) (hls : env.listTools = Except.ok tools) :
    (reportsFound (verify_tool env).1 ↔
      ∃ l₁ t l₂, tools = l₁ ++ t :: l₂ ∧ (∀ u ∈ l₁, u.name ≠ "execute_votc_action") ∧
        t.name = "execute_votc_action" ∧ t.truthy = true) ∧
    ((∀ t ∈ tools, t.name ≠ "execute_votc_action") →
      OutLine.mk .stdout "✗ Tool not found in registry" ∈ (verify_tool env).1 ∧
      (verify_tool env).2 = RoutineResult.normal ()) := by
  cases hfind : tools.find? (fun t => t.name == "execute_votc_action") with
  | none =>
    constructor
    · constructor
      · rintro ⟨s, hs⟩
        simp only [verify_tool, hcc, hls, hfind, List.mem_cons,
          OutLine.mk.injEq, List.not_mem_nil] at hs
        rcases hs with ⟨-, hs⟩ | ⟨-, hs⟩ | hs
        · exact (string_ne_append "\nVerifying tool registration..."
            "✓ Tool verified! ID: " s 0 (by decide) (by decide) hs.symm).elim
        · exact (string_ne_append "✗ Tool not found in registry"
            "✓ Tool verified! ID: " s 0 (by decide) (by decide) hs.symm).elim
        · exact hs.elim
      · rintro ⟨l₁, t, l₂, heq, hl₁, ht, -⟩
        rw [heq, find?_votc_append_first l₁ l₂ t ht hl₁] at hfind
        exact (Option.some_ne_none t hfind).elim
    · intro _
      simp [verify_tool, hcc, hls, hfind]
  | some t₀ =>
    have hmem := List.mem_of_find?_eq_some hfind
    have hname : t₀.name = "execute_votc_action" := by
      have := List.find?_some hfind; simpa using this
    cases htr : t₀.truthy with
    | true =>
      constructor
      · constructor
        · intro _
          obtain ⟨l₁, l₂, heq, hall⟩ := find?_votc_decomp tools t₀ hfind
          exact ⟨l₁, t₀, l₂, heq, hall, hname, htr⟩
        · intro _
          exact ⟨t₀.id, by simp [verify_tool, hcc, hls, hfind, htr]⟩
      · intro hall
        exact absurd hname (hall t₀ hmem)
    | false =>
      constructor
      · constructor
        · rintro ⟨s, hs⟩
          simp only [verify_tool, hcc, hls, hfind, htr, Bool.false_eq_true, if_false,
            List.mem_cons, OutLine.mk.injEq, List.not_mem_nil] at hs
          rcases hs with ⟨-, hs⟩ | ⟨-, hs⟩ | hs
          · exact (string_ne_append "\nVerifying tool registration..."
              "✓ Tool verified! ID: " s 0 (by decide) (by decide) hs.symm).elim
          · exact (string_ne_append "✗ Tool not found in registry"
              "✓ Tool verified! ID: " s 0 (by decide) (by decide) hs.symm).elim
          · exact hs.elim
        · rintro ⟨l₁, t, l₂, heq, hl₁, ht, htru⟩
          rw [heq, find?_votc_append_first l₁ l₂ t ht hl₁] at hfind
          have hts : t = t₀ := by simpa using hfind
          rw [hts] at htru
          exact absurd htru (by simp [htr])
      · intro hall
        exact absurd hname (hall t₀ hmem)

/-- Witness for C3's amended theorem at a concrete environment whose
registry holds exactly the expected (truthy) tool. -/
theorem verify_tool_found_iff_truthy_witness :
    (reportsFound (verify_tool envOk).1 ↔
      ∃ l₁ t l₂, [(⟨"tool-123", "execute_votc_action", true⟩ : Tool)] = l₁ ++ t :: l₂ ∧
        (∀ u ∈ l₁, u.name ≠ "execute_votc_action") ∧
        t.name = "execute_votc_action" ∧ t.truthy = true) ∧
    ((∀ t ∈ [(⟨"tool-123", "execute_votc_action", true⟩ : Tool)],
        t.name ≠ "execute_votc_action") →
      OutLine.mk .stdout "✗ Tool not found in registry" ∈ (verify_tool envOk).1 ∧
      (verify_tool envOk).2 = RoutineResult.normal ()) :=
  verify_tool_found_iff_truthy envOk [⟨"tool-123", "execute_votc_action", true⟩] rfl rfl

/-- C3 counterexample: in `envFalsyMatch` the listing does contain a record
named `execute_votc_action`, yet the routine prints the not-found message
and reports nothing as found, because the matched record is falsy and the
source's `if votc_tool:` test fails: "found iff some record has the name"
is false on this code. -/
theorem verify_tool_found_iff_counterexample :
    (∃ t ∈ [(⟨"idF", "execute_votc_action", false⟩ : Tool)],
      t.name = "execute_votc_action") ∧
    OutLine.mk .stdout "✗ Tool not found in registry" ∈ (verify_tool envFalsyMatch).1 ∧
    ¬ reportsFound (verify_tool envFalsyMatch).1 := by
  refine ⟨⟨⟨"idF", "execute_votc_action", false⟩, by simp, rfl⟩, by decide, ?_⟩
  rintro ⟨s, hs⟩
  have hv : (verify_tool envFalsyMatch).1 =
      [⟨.stdout, "\nVerifying tool registration..."⟩,
       ⟨.stdout, "✗ Tool not found in registry"⟩] := by decide
  rw [hv] at hs
  simp only [List.mem_cons, OutLine.mk.injEq, List.not_mem_nil] at hs
  rcases hs with ⟨-, hs⟩ | ⟨-, hs⟩ | hs
  · exact string_ne_append "\nVerifying tool registration..."
      "✓ Tool verified! ID: " s 0 (by decide) (by decide) hs.symm
  · exact string_ne_append "✗ Tool not found in registry"
      "✓ Tool verified! ID: " s 0 (by decide) (by decide) hs.symm
  · exact hs

/-- C5: a connection or server error raised during verification (from
`create_client` or `tools.list`) is caught inside the routine, its
diagnostic goes to stderr, and the routine returns normally: it neither
terminates the process nor propagates the exception. -/
theorem verify_tool_nonfatal (env : LettaEnv) (e : String)
    (h : env.createClient = Except.error e ∨
      (env.createClient = Except.ok () ∧ env.listTools = Except.error e)) :
    OutLine.mk .stderr ("✗ Error verifying tool: " ++ e) ∈ (verify_tool env).1 ∧
    (verify_tool env).2 = RoutineResult.normal () := by
  rcases h with h | ⟨h1, h2⟩ <;> simp [verify_tool, *]

/-- Witness for C5 at a concrete environment whose client creation raises. -/
theorem verify_tool_nonfatal_witness :
    (envConnFail.createClient = Except.error "Connection refused" ∨
      (envConnFail.createClient = Except.ok () ∧
       envConnFail.listTools = Except.error "Connection refused")) ∧
    (OutLine.mk .stderr ("✗ Error verifying tool: " ++ "Connection refused") ∈
       (verify_tool envConnFail).1 ∧
     (verify_tool envConnFail).2 = RoutineResult.normal ()) :=
  ⟨by decide, verify_tool_nonfatal envConnFail "Connection refused" (by decide)⟩

/-- C9 (amended): when the listing holds several records named
`execute_votc_action` and the first one in list order is Python-truthy,
the verification routine prints the id of that first record: the scan
breaks at the first name match, and the source's `if votc_tool:` test
then passes. -/
theorem verify_tool_first_match (cff : Except String Tool) (l₁ l₂ : List Tool) (t : Tool)
    (ht : t.name = "execute_votc_action")
    (htruthy : t.truthy = true)
    (hl₁ : ∀ u ∈ l₁, u.name ≠ "execute_votc_action")
    (hdup : ∃ u ∈ l₂, u.name = "execute_votc_action") :
    verify_tool ⟨Except.ok (), cff, Except.ok (l₁ ++ t :: l₂)⟩ =
      ([⟨.stdout, "\nVerifying tool registration..."⟩,
        ⟨.stdout, "✓ Tool verified! ID: " ++ t.id⟩], RoutineResult.normal ()) := by
  simp [verify_tool, find?_votc_append_first l₁ l₂ t ht hl₁, htruthy]

/-- Witness for C9's amended theorem with two records of the expected
name, the first truthy: the first one's id is the one reported. -/
theorem verify_tool_first_match_witness :
    verify_tool ⟨Except.ok (), Except.ok ⟨"id-first", "execute_votc_action", true⟩,
        Except.ok ([] ++ (⟨"id-first", "execute_votc_action", true⟩ : Tool) ::
          [⟨"id-second", "execute_votc_action", true⟩])⟩ =
      ([⟨.stdout, "\nVerifying tool registration..."⟩,
        ⟨.stdout, "✓ Tool verified! ID: " ++ Tool.id ⟨"id-first", "execute_votc_action", true⟩⟩],
       RoutineResult.normal ()) :=
  verify_tool_first_match (Except.ok ⟨"id-first", "execute_votc_action", true⟩)
    [] [⟨"id-second", "execute_votc_action", true⟩] ⟨"id-first", "execute_votc_action", true⟩
    rfl rfl (by simp) ⟨⟨"id-second", "execute_votc_action", true⟩, by simp, rfl⟩

/-- C9 counterexample: in `envTwoMatches` the listing holds two records
named `execute_votc_action`, yet the routine reports neither the first
record's id nor the second's: the first match is falsy, so the source's
`if votc_tool:` test fails and the not-found message is printed instead
of the first record's id. -/
theorem verify_tool_first_match_counterexample :
    verify_tool envTwoMatches =
      ([⟨.stdout, "\nVerifying tool registration..."⟩,
        ⟨.stdout, "✗ Tool not found in registry"⟩], RoutineResult.normal ()) ∧
    OutLine.mk .stdout ("✓ Tool verified! ID: " ++ "idF") ∉ (verify_tool envTwoMatches).1 ∧
    OutLine.mk .stdout ("✓ Tool verified! ID: " ++ "idS") ∉ (verify_tool envTwoMatches).1 := by
  decide

/-- C4 (amended): when registration catches a connection or server error,
the diagnostic is printed to stderr, the `Make sure:` banner and the
three remediation hints are printed to standard output, and the process
exits with status 1. -/
theorem register_tool_error_handling (env : LettaEnv) (e : String)
    (h : env.createClient = Except.error e ∨
      (env.createClient = Except.ok () ∧ env.createFromFunction = Except.error e)) :
    OutLine.mk .stderr ("\n✗ Error registering tool: " ++ e) ∈ (register_tool env).1 ∧
    OutLine.mk .stdout "\nMake sure:" ∈ (register_tool env).1 ∧
    OutLine.mk .stdout "  1. Letta server is running (default: http://localhost:8283)" ∈
      (register_tool env).1 ∧
    OutLine.mk .stdout "  2. You have the letta package installed: pip install letta" ∈
      (register_tool env).1 ∧
    OutLine.mk .stdout "  3. Your Letta server is accessible" ∈ (register_tool env).1 ∧
    (register_tool env).2 = RoutineResult.exit 1 := by
  rcases h with h | ⟨h1, h2⟩ <;> simp [register_tool, registerErrorLines, *]

/-- Witness for C4's amended theorem at a concrete failing connection. -/
theorem register_tool_error_handling_witness :
    (envConnFail.createClient = Except.error "Connection refused" ∨
      (envConnFail.createClient = Except.ok () ∧
       envConnFail.createFromFunction = Except.error "Connection refused")) ∧
    (OutLine.mk .stderr ("\n✗ Error registering tool: " ++ "Connection refused") ∈
       (register_tool envConnFail).1 ∧
     OutLine.mk .stdout "\nMake sure:" ∈ (register_tool envConnFail).1 ∧
     OutLine.mk .stdout "  1. Letta server is running (default: http://localhost:8283)" ∈
       (register_tool envConnFail).1 ∧
     OutLine.mk .stdout "  2. You have the letta package installed: pip install letta" ∈
       (register_tool envConnFail).1 ∧
     OutLine.mk .stdout "  3. Your Letta server is accessible" ∈ (register_tool envConnFail).1 ∧
     (register_tool envConnFail).2 = RoutineResult.exit 1) :=
  ⟨by decide, register_tool_error_handling envConnFail "Connection refused" (by decide)⟩

/-- C4 counterexample: at a concrete connection failure the first
remediation hint appears on stdout and none of the three hints appears on
stderr, so the claim that the diagnostic and all three hints go to the
error stream is false on this code. -/
theorem register_tool_hints_on_stdout :
    OutLine.mk .stdout "  1. Letta server is running (default: http://localhost:8283)" ∈
      (register_tool envConnFail).1 ∧
    OutLine.mk .stderr "  1. Letta server is running (default: http://localhost:8283)" ∉
      (register_tool envConnFail).1 ∧
    OutLine.mk .stderr "  2. You have the letta package installed: pip install letta" ∉
      (register_tool envConnFail).1 ∧
    OutLine.mk .stderr "  3. Your Letta server is accessible" ∉ (register_tool envConnFail).1 := by
  decide

/-- C1 (amended): if registration returns a truthy record, verification
runs exactly once and the process exits 0 whatever verification does; if
registration returns a falsy record, verification is skipped and the
process still exits 0; if registration exits (it only exits with 1),
verification never runs and the process exits 1. -/
theorem main_block_control_flow (env : LettaEnv) :
    (∀ t : Tool, (register_tool env).2 = RoutineResult.normal t → t.truthy = true →
      (main_block env).verifyCalls = 1 ∧ (main_block env).exitCode = 0) ∧
    (∀ t : Tool, (register_tool env).2 = RoutineResult.normal t → t.truthy = false →
      (main_block env).verifyCalls = 0 ∧ (main_block env).exitCode = 0) ∧
    (∀ c : Nat, (register_tool env).2 = RoutineResult.exit c →
      (main_block env).verifyCalls = 0 ∧ (main_block env).exitCode = 1) := by
  obtain ⟨cc, cf, lt⟩ := env
  cases cc with
  | error e => simp [register_tool, main_block]
  | ok u =>
    cases cf with
    | error e => simp [register_tool, main_block]
    | ok tool =>
      refine ⟨?_, ?_, ?_⟩
      · rintro t ht htrue
        simp only [register_tool, RoutineResult.normal.injEq] at ht
        subst ht
        simp [main_block, register_tool, htrue]
      · rintro t ht hfalse
        simp only [register_tool, RoutineResult.normal.injEq] at ht
        subst ht
        simp [main_block, register_tool, hfalse]
      · rintro c hc
        simp [register_tool] at hc

/-- Witness for C1's amended theorem: in the all-success environment the
script verifies once and exits 0. -/
theorem main_block_control_flow_witness :
    (main_block envOk).verifyCalls = 1 ∧ (main_block envOk).exitCode = 0 :=
  (main_block_control_flow envOk).1 ⟨"tool-123", "execute_votc_action", true⟩ (by decide) rfl

/-- C1 counterexample: in `envFalsy` registration returns successfully
(with a record whose truthiness is false), yet verification is not
invoked, refuting "if registration returns successfully, the verification
routine is invoked exactly once". -/
theorem main_block_falsy_record :
    (register_tool envFalsy).2 =
      RoutineResult.normal ⟨"tool-123", "execute_votc_action", false⟩ ∧
    (main_block envFalsy).verifyCalls = 0 ∧ (main_block envFalsy).exitCode = 0 := by
  decide

/-- C10: when registration returns a falsy record, the `__main__` block
skips verification, prints no completion banner, and the process exits
with status 0. -/
theorem main_block_falsy_skips_verify (env : LettaEnv) (t : Tool)
    (h : (register_tool env).2 = RoutineResult.normal t) (hf : t.truthy = false) :
    (main_block env).verifyCalls = 0 ∧ (main_block env).exitCode = 0 ∧
    OutLine.mk .stdout "  Registration complete!" ∉ (main_block env).output := by
  obtain ⟨cc, cf, lt⟩ := env
  cases cc with
  | error e => simp [register_tool] at h
  | ok u =>
    cases cf with
    | error e => simp [register_tool] at h
    | ok tool =>
      simp only [register_tool, RoutineResult.normal.injEq] at h
      subst h
      refine ⟨by simp [main_block, register_tool, hf], by simp [main_block, register_tool, hf], ?_⟩
      simp only [main_block, register_tool, hf, Bool.false_eq_true, if_false]
      intro hmem
      simp only [List.mem_append, List.mem_cons, List.not_mem_nil, or_false,
        OutLine.mk.injEq] at hmem
      rcases hmem with (⟨-, h1⟩ | ⟨-, h2⟩ | ⟨-, h3⟩) |
        (⟨-, h4⟩ | ⟨-, h5⟩ | ⟨-, h6⟩ | ⟨-, h7⟩ | ⟨-, h8⟩ | ⟨-, h9⟩ | ⟨-, h10⟩)
      · exact absurd h1 (by decide)
      · exact absurd h2 (by decide)
      · exact absurd h3 (by decide)
      · exact absurd h4 (by decide)
      · exact absurd h5 (by decide)
      · exact absurd h6 (by decide)
      · exact string_ne_append "  Registration complete!" "  Tool name: " tool.name 2
          (by decide) (by decide) h7
      · exact string_ne_append "  Registration complete!" "  Tool ID: " tool.id 2
          (by decide) (by decide) h8
      · exact absurd h9 (by decide)
      · exact absurd h10 (by decide)

/-- Witness for C10 at the concrete falsy-record environment. -/
theorem main_block_falsy_skips_verify_witness :
    (main_block envFalsy).verifyCalls = 0 ∧ (main_block envFalsy).exitCode = 0 ∧
    OutLine.mk .stdout "  Registration complete!" ∉ (main_block envFalsy).output :=
  main_block_falsy_skips_verify envFalsy ⟨"tool-123", "execute_votc_action", false⟩
    (by decide) rfl
